import Mathlib

/-!
Verification development for the repository's two core services: the
in-memory `QueryCache` (src/cache.py) and the `TokenMonitor` usage ledger
(src/token_monitor.py).  The Python classes are shallowly embedded: the
SQLite table backing the ledger becomes an explicit list of records carried
in the monitor state, `datetime.now()` becomes an explicit time parameter,
and the fallible SQLite insert becomes an explicit success flag.  Machine
integers are `Int`; Python exceptions are `Except`.
-/

/-! ## Query Cache (src/cache.py) -/

/-- One cache entry, as stored in `QueryCache.cache`: the Python dict
`{"value": ..., "timestamp": ...}`.  The stored Python value is modelled as
`Option String` so that Python `None` (`Option.none`) is distinguishable
from a text payload. -/
structure CacheEntry where
  value : Option String
  timestamp : Int
deriving DecidableEq

/-- The cache object: a dict from derived keys to entries, plus the
configured TTL in seconds.  The dict is modelled as an association list
with at most one binding per key (Python dicts have unique keys). -/
structure QueryCache where
  cache : List (String × CacheEntry)
  ttl : Int
deriving DecidableEq

namespace QueryCache

/-- Key derivation, from `_generate_key`: the source forms the string
`f"{query}|{repo_owner}|{repo_name}"` and returns its MD5 hex digest.
MD5 is a fixed deterministic function, so equality of derived keys is
exactly equality of these pre-hash strings (up to MD5 collisions, which
the source's own docstring disregards); we model the key by the pre-hash
string itself. -/
def generate_key (query repo_owner repo_name : String) : String :=
  query ++ "|" ++ repo_owner ++ "|" ++ repo_name

/-- Removal of the binding at `key`: Python `del self.cache[key]`. -/
def eraseKey (key : String) (l : List (String × CacheEntry)) :
    List (String × CacheEntry) :=
  l.filter (fun p => p.1 != key)

/-- The `get` method.  Returns the Python return value together with the
cache state after the call (the source mutates `self.cache` in place when
it observes an expired entry). -/
def get (c : QueryCache) (query repo_owner repo_name : String) (now : Int) :
    Option String × QueryCache :=
  let key := generate_key query repo_owner repo_name
  match c.cache.find? (fun p => p.1 == key) with
  | none => (none, c)
  | some e =>
      if now - e.2.timestamp > c.ttl then
        (none, { c with cache := eraseKey key c.cache })
      else
        (e.2.value, c)

/-- The `set` method: inserts or overwrites the binding at the derived key
with the current timestamp. -/
def setValue (c : QueryCache) (query repo_owner repo_name : String)
    (value : Option String) (now : Int) : QueryCache :=
  let key := generate_key query repo_owner repo_name
  { c with cache := eraseKey key c.cache ++ [(key, ⟨value, now⟩)] }

end QueryCache

/-! ### Cache helper lemmas -/

theorem find?_eraseKey_append (key : String) (e : CacheEntry)
    (l : List (String × CacheEntry)) :
    List.find? (fun p => p.1 == key) (QueryCache.eraseKey key l ++ [(key, e)]) =
      some (key, e) := by
  induction l with
  | nil => simp [QueryCache.eraseKey]
  | cons x xs ih =>
      by_cases h : x.1 = key
      · simp [QueryCache.eraseKey, List.filter_cons, h]
      · simp [QueryCache.eraseKey, List.filter_cons, h]

theorem eraseKey_eraseKey_append (key : String) (e : CacheEntry)
    (l : List (String × CacheEntry)) :
    QueryCache.eraseKey key (QueryCache.eraseKey key l ++ [(key, e)]) =
      QueryCache.eraseKey key l := by
  induction l with
  | nil => simp [QueryCache.eraseKey]
  | cons x xs ih =>
      by_cases h : x.1 = key
      · simp [QueryCache.eraseKey, List.filter_cons, List.filter_append, h]
      · simp [QueryCache.eraseKey, List.filter_cons, List.filter_append, h]

/-- Claim C3: after `set` stored a value, `get` returns that stored value
iff the elapsed time since the `set` is at most `ttl_seconds`; when the
age exceeds the TTL, `get` returns absent and deletes exactly that entry
(lazy eviction); and `get` has no other side effect on the cache. -/
theorem cache_ttl_get_after_set (c : QueryCache) (q o r v : String) (t now : Int) :
    (((QueryCache.get (QueryCache.setValue c q o r (some v) t) q o r now).1 = some v) ↔
        now - t ≤ c.ttl)
    ∧ (now - t ≤ c.ttl →
        (QueryCache.get (QueryCache.setValue c q o r (some v) t) q o r now).2 =
          QueryCache.setValue c q o r (some v) t)
    ∧ (c.ttl < now - t →
        (QueryCache.get (QueryCache.setValue c q o r (some v) t) q o r now).1 = none)
    ∧ (c.ttl < now - t →
        (QueryCache.get (QueryCache.setValue c q o r (some v) t) q o r now).2 =
          ⟨QueryCache.eraseKey (QueryCache.generate_key q o r) c.cache, c.ttl⟩) := by
  have hfind := find?_eraseKey_append (QueryCache.generate_key q o r)
    ⟨some v, t⟩ c.cache
  by_cases h : c.ttl < now - t
  · refine ⟨?_, ?_, ?_, ?_⟩
    · simp [QueryCache.get, QueryCache.setValue, hfind, h, not_le.mpr h]
    · intro hle; exact absurd hle (not_le.mpr h)
    · intro _; simp [QueryCache.get, QueryCache.setValue, hfind, h]
    · intro _
      simp only [QueryCache.get, QueryCache.setValue, hfind]
      rw [if_pos h]
      simp [eraseKey_eraseKey_append]
  · refine ⟨?_, ?_, ?_, ?_⟩
    · simp [QueryCache.get, QueryCache.setValue, hfind, h, not_lt.mp h]
    · intro _; simp [QueryCache.get, QueryCache.setValue, hfind, h]
    · intro hlt; exact absurd hlt h
    · intro hlt; exact absurd hlt h

/-- Witness for C3 at concrete inputs: a fresh entry is returned while
inside the TTL, and is gone past the TTL. -/
theorem cache_ttl_get_after_set_witness :
    ((QueryCache.get (QueryCache.setValue ⟨[], 3600⟩ "q" "o" "r" (some "X") 0) "q" "o" "r" 10).1 =
        some "X")
    ∧ ((QueryCache.get (QueryCache.setValue ⟨[], 3600⟩ "q" "o" "r" (some "X") 0) "q" "o" "r" 4000).1 =
        none) :=
  ⟨(cache_ttl_get_after_set ⟨[], 3600⟩ "q" "o" "r" "X" 0 10).1.mpr (by decide),
   (cache_ttl_get_after_set ⟨[], 3600⟩ "q" "o" "r" "X" 0 4000).2.2.1 (by decide)⟩

/-- Claim C8: storing Python `None` as a value is indistinguishable from a
miss at the public interface: after `set(..., None)` a subsequent `get`
returns `None`, exactly as for a key never stored. -/
theorem cache_none_indistinguishable (c : QueryCache) (q o r : String)
    (t now ttl : Int) :
    ((QueryCache.get (QueryCache.setValue c q o r none t) q o r now).1 = none)
    ∧ ((QueryCache.get (⟨[], ttl⟩ : QueryCache) q o r now).1 = none) := by
  have hfind := find?_eraseKey_append (QueryCache.generate_key q o r)
    ⟨none, t⟩ c.cache
  constructor
  · by_cases h : c.ttl < now - t
    · simp [QueryCache.get, QueryCache.setValue, hfind, h]
    · simp [QueryCache.get, QueryCache.setValue, hfind, h]
  · simp [QueryCache.get]

/-- Claim C4, counterexample: two distinct triples whose fields contain the
separator character derive the same key string, hence the same MD5 key —
a deterministic collision, not a hash collision. -/
theorem key_derivation_collision :
    QueryCache.generate_key "a|b" "c" "d" = QueryCache.generate_key "a" "b|c" "d"
    ∧ (("a|b", "c", "d") : String × String × String) ≠ ("a", "b|c", "d") := by
  exact ⟨by decide, by decide⟩

theorem append_pipe_inj (a : List Char) (b : List Char) (c : List Char) (d : List Char)
    (ha : '|' ∉ a) (hc : '|' ∉ c)
    (h : a ++ '|' :: b = c ++ '|' :: d) : a = c ∧ b = d := by
  induction a generalizing c with
  | nil =>
      cases c with
      | nil => simpa using h
      | cons y cs =>
          simp only [List.nil_append, List.cons_append, List.cons.injEq] at h
          obtain ⟨h1, h2⟩ := h
          subst h1
          exact absurd (List.mem_cons_self _ _) hc
  | cons x xs ih =>
      cases c with
      | nil =>
          simp only [List.nil_append, List.cons_append, List.cons.injEq] at h
          obtain ⟨h1, h2⟩ := h
          subst h1
          exact absurd (List.mem_cons_self _ _) ha
      | cons y cs =>
          simp only [List.cons_append, List.cons.injEq] at h
          obtain ⟨rfl, h2⟩ := h
          have ha' : '|' ∉ xs := fun hm => ha (List.mem_cons_of_mem _ hm)
          have hc' : '|' ∉ cs := fun hm => hc (List.mem_cons_of_mem _ hm)
          obtain ⟨rfl, rfl⟩ := ih cs ha' hc' h2
          exact ⟨rfl, rfl⟩

/-- Claim C4, amended: key derivation is a pure function of the triple, and
it is injective on triples whose query and owner fields do not contain the
separator character '|'; with a separator inside a field, distinct triples
can deterministically collide. -/
theorem key_derivation_injective (q1 o1 r1 q2 o2 r2 : String)
    (hq1 : '|' ∉ q1.data) (ho1 : '|' ∉ o1.data)
    (hq2 : '|' ∉ q2.data) (ho2 : '|' ∉ o2.data) :
    QueryCache.generate_key q1 o1 r1 = QueryCache.generate_key q2 o2 r2 ↔
      (q1 = q2 ∧ o1 = o2 ∧ r1 = r2) := by
  constructor
  · intro h
    have hd := congrArg String.data h
    have hpipe : ("|" : String).data = ['|'] := rfl
    simp only [QueryCache.generate_key, String.data_append, hpipe,
      List.append_assoc, List.singleton_append] at hd
    obtain ⟨e1, e2⟩ := append_pipe_inj q1.data _ q2.data _ hq1 hq2 hd
    obtain ⟨e3, e4⟩ := append_pipe_inj o1.data _ o2.data _ ho1 ho2 e2
    exact ⟨String.ext e1, String.ext e3, String.ext e4⟩
  · rintro ⟨rfl, rfl, rfl⟩
    rfl

/-- Witness for the amended C4 at concrete pipe-free inputs. -/
theorem key_derivation_injective_witness :
    (QueryCache.generate_key "qa" "ob" "rc" = QueryCache.generate_key "qa" "ob" "rd" ↔
      ("qa" = "qa" ∧ "ob" = "ob" ∧ "rc" = "rd")) :=
  key_derivation_injective "qa" "ob" "rc" "qa" "ob" "rd"
    (by decide) (by decide) (by decide) (by decide)

/-! ## Token Monitor (src/token_monitor.py) -/

/-- One row of the `token_usage` SQLite table, in column order
`(id, timestamp, user_query, response_length, input_tokens, output_tokens,
total_tokens, model_name)`.  `id` is the AUTOINCREMENT primary key. -/
structure UsageRecord where
  id : Int
  timestamp : String
  user_query : String
  response_length : Int
  input_tokens : Int
  output_tokens : Int
  total_tokens : Int
  model_name : String
deriving DecidableEq

/-- The `current_session_tokens` dict of live session counters. -/
structure SessionTokens where
  input_tokens : Int
  output_tokens : Int
  total_tokens : Int
  queries : Int
deriving DecidableEq

/-- The monitor state: the session counters, the optional HuggingFace
tokenizer (modelled as the function text ↦ encoded token list), the model
name, and the contents of the `token_usage` table in insertion order. -/
structure TokenMonitor where
  session : SessionTokens
  tokenizer : Option (String → List Nat)
  model_name : String
  db : List UsageRecord

namespace TokenMonitor

/-- The `count_tokens` method: with no tokenizer configured, the fallback
estimate `len(text) // 4` (floor division of non-negative ints, i.e. `Nat`
division); with a tokenizer, `len(tokenizer.encode(text))`. -/
def count_tokens (m : TokenMonitor) (text : String) : Int :=
  match m.tokenizer with
  | none => ((text.length / 4 : Nat) : Int)
  | some tk => ((tk text).length : Int)

/-- The `on_llm_start` callback: when the prompt list is non-empty, joins
the prompts with a single space, counts the result, and adds it to the
session `input_tokens` counter.  Nothing else is touched. -/
def on_llm_start (m : TokenMonitor) (prompts : List String) : TokenMonitor :=
  match prompts with
  | [] => m
  | _ :: _ =>
      let input_text := String.intercalate " " prompts
      let it := m.count_tokens input_text
      { m with session := { m.session with
          input_tokens := m.session.input_tokens + it } }

/-- The `on_llm_end` callback: when the generation list is non-empty, joins
the first text of each non-empty generation group with a single space,
counts it, adds it to `output_tokens`, and recomputes `total_tokens` as
session `input_tokens + output_tokens`. -/
def on_llm_end (m : TokenMonitor) (generations : List (List String)) :
    TokenMonitor :=
  match generations with
  | [] => m
  | _ :: _ =>
      let output_text := String.intercalate " " (generations.filterMap List.head?)
      let ot := m.count_tokens output_text
      { m with session := { m.session with
          output_tokens := m.session.output_tokens + ot,
          total_tokens := m.session.input_tokens + (m.session.output_tokens + ot) } }

/-- The row built and inserted by `log_query`: omitted token counts default
to `count_tokens` on the corresponding text, the total is recomputed as
input + output (there is no caller-supplied total), `response_length` is
`len(response_text)`, and `id` is the next AUTOINCREMENT value. -/
def mkUsageRecord (m : TokenMonitor) (user_query response_text : String)
    (input_tokens output_tokens : Option Int) (now : String) : UsageRecord :=
  let it := input_tokens.getD (m.count_tokens user_query)
  let ot := output_tokens.getD (m.count_tokens response_text)
  { id := (m.db.length : Int) + 1
    timestamp := now
    user_query := user_query
    response_length := (response_text.length : Int)
    input_tokens := it
    output_tokens := ot
    total_tokens := it + ot
    model_name := m.model_name }

/-- Result of a `log_query` call: the monitor state after the call, and
whether the call returned normally (`ok = true`) or the SQLite insert
raised (`ok = false`, the exception propagating to the caller). -/
structure LogResult where
  state : TokenMonitor
  ok : Bool

/-- The `log_query` method.  `insertOk` models whether the SQLite
INSERT/commit succeeds.  On failure the exception propagates before any
field of the object has been mutated, so the state is unchanged; on
success the record is appended and — only after the commit — the session
`queries` counter is incremented. -/
def log_query (m : TokenMonitor) (user_query response_text : String)
    (input_tokens output_tokens : Option Int) (now : String)
    (insertOk : Bool) : LogResult :=
  if insertOk then
    { state := { m with
        db := m.db ++ [m.mkUsageRecord user_query response_text input_tokens output_tokens now]
        session := { m.session with queries := m.session.queries + 1 } }
      ok := true }
  else
    { state := m, ok := false }

/-- The `_init_database` call, acting on the durable table (`none` when the
table does not yet exist): CREATE TABLE IF NOT EXISTS creates an empty
table when absent and leaves an existing table untouched. -/
def init_database (tbl : Option (List UsageRecord)) : Option (List UsageRecord) :=
  some (tbl.getD [])

/-- The `get_session_stats` method: a snapshot of the live counters. -/
def get_session_stats (m : TokenMonitor) : SessionTokens := m.session

/-- The `reset_session` method: zeroes the four session counters. -/
def reset_session (m : TokenMonitor) : TokenMonitor :=
  { m with session := ⟨0, 0, 0, 0⟩ }

end TokenMonitor

/-! ### Report machinery (TokenMonitor.get_report) -/

/-- SQLite values as returned by `fetchall`; this table stores only
INTEGER and TEXT columns. -/
inductive SqlVal where
  | int (i : Int)
  | text (s : String)
deriving DecidableEq

/-- Byte-wise comparison SQLite applies to TEXT values (code-point
lexicographic order, which coincides with byte order for the ASCII
timestamps at hand). -/
def charListLe : List Char → List Char → Bool
  | [], _ => true
  | _ :: _, [] => false
  | a :: as, b :: bs => if a = b then charListLe as bs else decide (a < b)

/-- TEXT `<=`, as used by the SQL filters `timestamp >= ?` /
`timestamp <= ?` and by `ORDER BY timestamp`. -/
def textLe (a b : String) : Bool := charListLe a.data b.data

/-- The WHERE clause of `get_report`: optional inclusive bounds on the
`timestamp` column. -/
def matchesRange (start_date end_date : Option String) (r : UsageRecord) : Bool :=
  (match start_date with | none => true | some s => textLe s r.timestamp)
  && (match end_date with | none => true | some e => textLe r.timestamp e)

/-- Insertion into a list kept in descending timestamp order. -/
def insertDesc (r : UsageRecord) : List UsageRecord → List UsageRecord
  | [] => [r]
  | x :: xs =>
      if textLe r.timestamp x.timestamp then x :: insertDesc r xs
      else r :: x :: xs

/-- The `ORDER BY timestamp DESC` step of `get_report`. -/
def sortDesc (l : List UsageRecord) : List UsageRecord := l.foldr insertDesc []

/-- One fetched row, in `SELECT *` column order. -/
def rowOf (r : UsageRecord) : List SqlVal :=
  [.int r.id, .text r.timestamp, .text r.user_query, .int r.response_length,
   .int r.input_tokens, .int r.output_tokens, .int r.total_tokens, .text r.model_name]

/-- Python `sum` over fetched column values: starts from the integer 0 and
raises TypeError (`Except.error`) as soon as it adds a TEXT value. -/
def pySum (l : List SqlVal) : Except Unit Int :=
  l.foldlM (fun acc v => match v with
    | .int i => Except.ok (acc + i)
    | .text _ => Except.error ()) 0

/-- One element of the `recent_queries` list in `get_report`'s return
value, holding whichever fetched values the source picks out
(`row[1], row[2], row[5], row[6], row[7]`). -/
structure RecentQuery where
  timestamp : SqlVal
  query : SqlVal
  input_tokens : SqlVal
  output_tokens : SqlVal
  total_tokens : SqlVal
deriving DecidableEq

/-- The `recent_queries` comprehension of `get_report`, applied to
`rows[:10]`. -/
def buildRecent (rows : List (List SqlVal)) : List RecentQuery :=
  rows.map (fun row =>
    { timestamp := row.getD 1 (.int 0)
      query := row.getD 2 (.int 0)
      input_tokens := row.getD 5 (.int 0)
      output_tokens := row.getD 6 (.int 0)
      total_tokens := row.getD 7 (.int 0) })

/-- The dictionary returned by `get_report`.  `average_tokens_per_query` is
Python float division `total_tokens / total_queries`, modelled in ℚ. -/
structure Report where
  total_queries : Nat
  total_input_tokens : Int
  total_output_tokens : Int
  total_tokens : Int
  average_tokens_per_query : Rat
  recent_queries : List RecentQuery
deriving DecidableEq

/-- The `get_report` method: filters by the optional date bounds, orders by
timestamp descending, caps at `limit`, then aggregates by column index
over the fetched rows exactly as the source does (`row[5]`, `row[6]`,
`row[7]`), raising (`Except.error`) where Python would raise. -/
def TokenMonitor.get_report (m : TokenMonitor) (limit : Nat)
    (start_date end_date : Option String) : Except Unit Report := do
  let rows := ((sortDesc (m.db.filter (matchesRange start_date end_date))).take limit).map rowOf
  let total_input ← pySum (rows.map (fun row => row.getD 5 (.int 0)))
  let total_output ← pySum (rows.map (fun row => row.getD 6 (.int 0)))
  let total_tokens ← pySum (rows.map (fun row => row.getD 7 (.int 0)))
  let total_queries := rows.length
  pure
    { total_queries := total_queries
      total_input_tokens := total_input
      total_output_tokens := total_output
      total_tokens := total_tokens
      average_tokens_per_query :=
        if 0 < total_queries then (total_tokens : Rat) / (total_queries : Rat) else 0
      recent_queries := buildRecent (rows.take 10) }

/-- A freshly constructed monitor with the default empty model name. -/
def emptyMonitor : TokenMonitor :=
  { session := ⟨0, 0, 0, 0⟩, tokenizer := none, model_name := "", db := [] }

/-- The spec's example scenario: five `log_query("q1", "resp",
input_tokens=10, output_tokens=20)` calls against a fresh monitor, with
the ledger-assigned timestamps t1 < t2 < t3 < t4 < t5. -/
def logFive : TokenMonitor :=
  (["t1", "t2", "t3", "t4", "t5"].foldl
    (fun m ts => (m.log_query "q1" "resp" (some 10) (some 20) ts true).state)
    emptyMonitor)

/-- Claim C1: the code contradicts it.  The stored records do carry
`total_tokens = 30` each (so the spec's totals are the right answer), but
`get_report` raises TypeError instead of returning them: it aggregates
`row[5]`, `row[6]`, `row[7]` of the `SELECT *` rows, which are the
`output_tokens`, `total_tokens` and `model_name` columns, and summing the
`model_name` TEXT column adds a string to an int. -/
theorem get_report_scenario_raises :
    TokenMonitor.get_report logFive 10 none none = Except.error ()
    ∧ logFive.db.map UsageRecord.total_tokens = [30, 30, 30, 30, 30] :=
  ⟨rfl, rfl⟩

/-- A monitor constructed with model name "m", as in the repository's own
tests. -/
def monitorM : TokenMonitor :=
  { session := ⟨0, 0, 0, 0⟩, tokenizer := none, model_name := "m", db := [] }

/-- One logged record on `monitorM`. -/
def logOne : TokenMonitor :=
  (monitorM.log_query "q1" "resp" (some 10) (some 20) "t1" true).state

/-- Claim C2: the code contradicts it.  `get_report` raises before it can
return `recent_queries`; and the `recent_queries` comprehension the source
would build labels the stored `output_tokens` (20) as `input_tokens`, the
stored `total_tokens` (30) as `output_tokens`, and the `model_name` TEXT
value as `total_tokens` — again the off-by-one column indexing. -/
theorem recent_queries_mislabeled :
    TokenMonitor.get_report logOne 10 none none = Except.error ()
    ∧ buildRecent ((logOne.db.map rowOf).take 10) =
        [{ timestamp := .text "t1", query := .text "q1",
           input_tokens := .int 20, output_tokens := .int 30,
           total_tokens := .text "m" }] :=
  ⟨rfl, rfl⟩

/-- Claim C5: every record appended by `log_query` has
`total_tokens = input_tokens + output_tokens` (recomputed, never taken
from the caller), `response_length` equal to the character length of the
response text, and omitted token counts computed by `count_tokens` on the
corresponding text. -/
theorem log_query_record_invariants (m : TokenMonitor) (q r : String)
    (it ot : Option Int) (now : String) :
    ((m.log_query q r it ot now true).state.db =
        m.db ++ [m.mkUsageRecord q r it ot now])
    ∧ ((m.mkUsageRecord q r it ot now).total_tokens =
        (m.mkUsageRecord q r it ot now).input_tokens +
          (m.mkUsageRecord q r it ot now).output_tokens)
    ∧ ((m.mkUsageRecord q r it ot now).response_length = (r.length : Int))
    ∧ (it = none → (m.mkUsageRecord q r it ot now).input_tokens = m.count_tokens q)
    ∧ (ot = none → (m.mkUsageRecord q r it ot now).output_tokens = m.count_tokens r) :=
  ⟨rfl, rfl, rfl, fun h => by subst h; rfl, fun h => by subst h; rfl⟩

/-- Witness for C5 at concrete inputs with omitted token counts. -/
theorem log_query_record_invariants_witness :
    ((emptyMonitor.mkUsageRecord "abcdefgh" "xy" none none "t").input_tokens =
        emptyMonitor.count_tokens "abcdefgh")
    ∧ ((emptyMonitor.mkUsageRecord "abcdefgh" "xy" none none "t").total_tokens =
        (emptyMonitor.mkUsageRecord "abcdefgh" "xy" none none "t").input_tokens +
          (emptyMonitor.mkUsageRecord "abcdefgh" "xy" none none "t").output_tokens) :=
  ⟨(log_query_record_invariants emptyMonitor "abcdefgh" "xy" none none "t").2.2.2.1 rfl,
   (log_query_record_invariants emptyMonitor "abcdefgh" "xy" none none "t").2.1⟩

/-- The argument bundle of one `log_query` call. -/
structure LogCall where
  user_query : String
  response_text : String
  input_tokens : Option Int
  output_tokens : Option Int
  now : String

/-- A sequence of successful `log_query` calls. -/
def logMany (m : TokenMonitor) (calls : List LogCall) : TokenMonitor :=
  calls.foldl
    (fun acc c =>
      (acc.log_query c.user_query c.response_text c.input_tokens c.output_tokens
        c.now true).state) m

theorem logMany_db_length (calls : List LogCall) (m : TokenMonitor) :
    (logMany m calls).db.length = m.db.length + calls.length := by
  induction calls generalizing m with
  | nil => simp [logMany]
  | cons c cs ih =>
      have h := ih ((m.log_query c.user_query c.response_text c.input_tokens
        c.output_tokens c.now true).state)
      have hstep : ((m.log_query c.user_query c.response_text c.input_tokens
          c.output_tokens c.now true).state).db.length = m.db.length + 1 := by
        simp [TokenMonitor.log_query]
      calc (logMany m (c :: cs)).db.length
          = ((m.log_query c.user_query c.response_text c.input_tokens
              c.output_tokens c.now true).state).db.length + cs.length := h
        _ = m.db.length + (c :: cs).length := by rw [hstep]; simp; omega

/-- Claim C6: the durable store is append-only.  After N successful
`log_query` calls from an empty store exactly N records exist; each call
appends one record and leaves all earlier records bit-for-bit unchanged;
re-initialization (`CREATE TABLE IF NOT EXISTS`) leaves an existing table
untouched; and `reset_session` never touches the durable records. -/
theorem ledger_append_only (calls : List LogCall) (m : TokenMonitor)
    (q r : String) (it ot : Option Int) (now : String)
    (tbl : List UsageRecord) :
    ((logMany emptyMonitor calls).db.length = calls.length)
    ∧ ((m.log_query q r it ot now true).state.db.take m.db.length = m.db)
    ∧ ((m.log_query q r it ot now true).state.db.length = m.db.length + 1)
    ∧ (TokenMonitor.init_database (some tbl) = some tbl)
    ∧ ((m.reset_session).db = m.db) := by
  refine ⟨?_, ?_, ?_, rfl, rfl⟩
  · have := logMany_db_length calls emptyMonitor
    simpa [emptyMonitor] using this
  · simp [TokenMonitor.log_query, List.take_left]
  · simp [TokenMonitor.log_query]

/-- Claim C7: `count_tokens` always returns a non-negative integer, and
with no tokenizer configured it is exactly `len(text) // 4` (floor), a
total function that cannot raise. -/
theorem count_tokens_nonneg_fallback :
    (∀ (m : TokenMonitor) (text : String), 0 ≤ m.count_tokens text)
    ∧ (∀ (m : TokenMonitor) (text : String), m.tokenizer = none →
        m.count_tokens text = ((text.length / 4 : Nat) : Int)) := by
  constructor
  · intro m text
    cases h : m.tokenizer with
    | none =>
        simp only [TokenMonitor.count_tokens, h]
        exact Int.natCast_nonneg _
    | some tk =>
        simp only [TokenMonitor.count_tokens, h]
        exact Int.natCast_nonneg _
  · intro m text h
    simp [TokenMonitor.count_tokens, h]

/-- Witness for C7 at a concrete monitor and text: 8 characters count as
exactly 2 tokens under the fallback. -/
theorem count_tokens_nonneg_fallback_witness :
    (0 ≤ emptyMonitor.count_tokens "12345678")
    ∧ (emptyMonitor.count_tokens "12345678" = (("12345678".length / 4 : Nat) : Int)) :=
  ⟨count_tokens_nonneg_fallback.1 emptyMonitor "12345678",
   count_tokens_nonneg_fallback.2 emptyMonitor "12345678" rfl⟩

/-- Claim C9, counterexample: with the fallback counter a three-character
prompt counts as 0 tokens, so immediately after `on_llm_start` — i.e.
between the request observation and the matching response observation —
the session still satisfies `total_tokens = input_tokens + output_tokens`,
contradicting the claimed inequality. -/
theorem session_consistency_persists :
    (emptyMonitor.on_llm_start ["abc"]).session.total_tokens =
      (emptyMonitor.on_llm_start ["abc"]).session.input_tokens +
        (emptyMonitor.on_llm_start ["abc"]).session.output_tokens := rfl

/-- Claim C9, amended: `on_llm_start` on a non-empty prompt list adds the
counted prompt tokens to session `input_tokens` only, leaving
`output_tokens`, `total_tokens` and `queries` unchanged; when the session
counters were consistent beforehand and the counted prompt tokens are
positive, `total_tokens ≠ input_tokens + output_tokens` holds after
`on_llm_start`, and `on_llm_end` on a non-empty generation list restores
the equality. -/
theorem on_llm_start_frame (m : TokenMonitor) (prompts : List String)
    (gens : List (List String)) (hp : prompts ≠ []) (hg : gens ≠ []) :
    ((m.on_llm_start prompts).session.output_tokens = m.session.output_tokens)
    ∧ ((m.on_llm_start prompts).session.total_tokens = m.session.total_tokens)
    ∧ ((m.on_llm_start prompts).session.queries = m.session.queries)
    ∧ ((m.on_llm_start prompts).session.input_tokens =
        m.session.input_tokens + m.count_tokens (String.intercalate " " prompts))
    ∧ (m.session.total_tokens = m.session.input_tokens + m.session.output_tokens →
        0 < m.count_tokens (String.intercalate " " prompts) →
        (m.on_llm_start prompts).session.total_tokens ≠
          (m.on_llm_start prompts).session.input_tokens +
            (m.on_llm_start prompts).session.output_tokens)
    ∧ (((m.on_llm_start prompts).on_llm_end gens).session.total_tokens =
        ((m.on_llm_start prompts).on_llm_end gens).session.input_tokens +
          ((m.on_llm_start prompts).on_llm_end gens).session.output_tokens) := by
  cases prompts with
  | nil => exact absurd rfl hp
  | cons p ps =>
      cases gens with
      | nil => exact absurd rfl hg
      | cons g gs =>
          refine ⟨rfl, rfl, rfl, rfl, ?_, rfl⟩
          intro hcons hpos
          simp only [TokenMonitor.on_llm_start]
          omega

/-- Witness for the amended C9 at a concrete monitor: a five-character
prompt counts one token, breaking the consistency equation. -/
theorem on_llm_start_frame_witness :
    (emptyMonitor.on_llm_start ["abcde"]).session.total_tokens ≠
      (emptyMonitor.on_llm_start ["abcde"]).session.input_tokens +
        (emptyMonitor.on_llm_start ["abcde"]).session.output_tokens :=
  (on_llm_start_frame emptyMonitor ["abcde"] [["x"]] (by decide) (by decide)).2.2.2.2.1
    rfl (by decide)

/-- Claim C10: `log_query` is atomic with respect to session state on
storage failure — if the insert raises, the exception propagates
(`ok = false`) and the whole monitor state, session counters included, is
unchanged; and even on success `log_query` never modifies the session
`input_tokens`, `output_tokens` or `total_tokens` counters. -/
theorem log_query_failure_atomic (m : TokenMonitor) (q r : String)
    (it ot : Option Int) (now : String) :
    ((m.log_query q r it ot now false).state = m)
    ∧ ((m.log_query q r it ot now false).ok = false)
    ∧ ((m.log_query q r it ot now true).state.session.input_tokens =
        m.session.input_tokens)
    ∧ ((m.log_query q r it ot now true).state.session.output_tokens =
        m.session.output_tokens)
    ∧ ((m.log_query q r it ot now true).state.session.total_tokens =
        m.session.total_tokens) :=
  ⟨rfl, rfl, rfl, rfl, rfl⟩
